import Mathlib

/-! Verification of the RNG Visualizer (`rand_bw.py`).

Shallow embedding of the source: Python arbitrary-precision integers are
modelled as `ℤ` with explicit two's-complement bitwise primitives, Python
floats as exact rationals `ℚ`, the tkinter widgets holding caller-visible
state (grid canvas, stats panel, status label, seed entry, in-flight flag)
as fields of an `AppState` record, and the ambient randomness of
`random.randint` as an explicit oracle argument. -/

/-! ## Python integer and float primitives -/

/-- Python bitwise xor on arbitrary-precision integers, two's complement:
`~m ^ n = ~(m ^ n)` and `~m ^ ~n = m ^ n`, with `Int.negSucc m = ~m`. -/
def pyXor : ℤ → ℤ → ℤ
  | .ofNat m, .ofNat n => .ofNat (m ^^^ n)
  | .ofNat m, .negSucc n => .negSucc (m ^^^ n)
  | .negSucc m, .ofNat n => .negSucc (m ^^^ n)
  | .negSucc m, .negSucc n => .ofNat (m ^^^ n)

/-- Python right shift `x >> k` on arbitrary integers: arithmetic shift,
i.e. floor division by `2^k` (`~m >> k = ~(m >> k)`). -/
def pyShr : ℤ → ℕ → ℤ
  | .ofNat m, k => .ofNat (m >>> k)
  | .negSucc m, k => .negSucc (m >>> k)

/-- Python left shift `x << k`: exact multiplication by `2^k`
(no truncation on Python ints). -/
def pyShl (x : ℤ) (k : ℕ) : ℤ := x * 2 ^ k

/-- Python `x & (2^k - 1)`: on two's-complement arbitrary-precision
integers, bitwise AND with a contiguous all-ones mask is reduction mod
`2^k`, yielding a value in `[0, 2^k)`.  The source applies `&` only with
the masks `0xFFFFFFFF` and `0xFFFFFFFFFFFFFFFF`. -/
def pyMask (x : ℤ) (k : ℕ) : ℤ := x % ((2 : ℤ) ^ k)

/-- Python `int()` applied to a real value: truncation toward zero.
Python floats are modelled as exact rationals. -/
def pyInt (q : ℚ) : ℤ := if 0 ≤ q then q.floor else q.ceil

/-- Rounding to the nearest integer, halves up (`⌊q + 1/2⌋`); used only to
state the spec's `round` in the color-mapping claim. -/
def roundQ (q : ℚ) : ℤ := (q + 1/2).floor

/-- Clamping an integer into `[lo, hi]`; used only to state the spec's
`clamp` in the color-mapping claim. -/
def clamp (x lo hi : ℤ) : ℤ := max lo (min x hi)

/-! ## RNG step functions (source lines 55–76) -/

/-- Linear Congruential Generator step (`lcg`):
`return (s * 9301 + 49297) % 233280, 233280`.  Python `%` with a positive
modulus is `Int.emod`. -/
def lcg (s : ℤ) : ℤ × ℤ := ((s * 9301 + 49297) % 233280, 233280)

/-- Park-Miller step (`park_miller`):
`return (s * 16807) % 2147483647, 2147483647`. -/
def park_miller (s : ℤ) : ℤ × ℤ := ((s * 16807) % 2147483647, 2147483647)

/-- Xorshift step (`xorshift`):
`s ^= (s << 13) & 0xFFFFFFFF; s ^= (s >> 17); s ^= (s << 5) & 0xFFFFFFFF;`
`return s & 0xFFFFFFFF, 0xFFFFFFFF`.  Note that the source masks the two
left-shift terms and the returned value, but neither the right-shift term
nor the xor results themselves. -/
def xorshift (s : ℤ) : ℤ × ℤ :=
  let s1 := pyXor s (pyMask (pyShl s 13) 32)
  let s2 := pyXor s1 (pyShr s1 17)
  let s3 := pyXor s2 (pyMask (pyShl s2 5) 32)
  (pyMask s3 32, 0xFFFFFFFF)

/-- Multiply-with-carry step (`multiply_with_carry`):
`a = 4294957665; c = (s >> 32) & 0xFFFFFFFF; x = s & 0xFFFFFFFF;`
`result = (a * x + c) & 0xFFFFFFFFFFFFFFFF; return result, 0xFFFFFFFFFFFFFFFF`. -/
def multiply_with_carry (s : ℤ) : ℤ × ℤ :=
  let c := pyMask (pyShr s 32) 32
  let x := pyMask s 32
  (pyMask (4294957665 * x + c) 64, 0xFFFFFFFFFFFFFFFF)

/-- Algorithm registry (the `ALGORITHMS` dict, in declaration order):
name, step function, and tint color.  Tint colors are the `#rrggbb` hex
strings of the source parsed into channel triples, as `value_to_color`
parses them. -/
def ALGORITHMS : List (String × ((ℤ → ℤ × ℤ) × (ℤ × ℤ × ℤ))) :=
  [("Linear Congruential (LCG)", (lcg, (0x00, 0xd4, 0xff))),
   ("Park-Miller", (park_miller, (0x00, 0xff, 0x88))),
   ("Xorshift", (xorshift, (0xff, 0xaa, 0x00))),
   ("Multiply-with-Carry", (multiply_with_carry, (0xff, 0x44, 0x66)))]

/-! ## Color mapping (source lines 102–112) -/

/-- Color mapping (`value_to_color`): `ratio = v / mod` (float division,
modelled as exact rational division), `base_gray = int(ratio * 200 + 20)`,
then per channel `int(tint_channel * 0.1 + base_gray * 0.9)` capped above
by `min(_, 255)`.  The final `#rrggbb` hex string is display formatting;
the channel triple is the modelled result. -/
def value_to_color (v m : ℤ) (tint : ℤ × ℤ × ℤ) : ℤ × ℤ × ℤ :=
  let r_q : ℚ := (v : ℚ) / (m : ℚ)
  let base_gray : ℤ := pyInt (r_q * 200 + 20)
  let r := pyInt ((tint.1 : ℚ) * (1/10) + (base_gray : ℚ) * (9/10))
  let g := pyInt ((tint.2.1 : ℚ) * (1/10) + (base_gray : ℚ) * (9/10))
  let b := pyInt ((tint.2.2 : ℚ) * (1/10) + (base_gray : ℚ) * (9/10))
  (min r 255, min g 255, min b 255)

/-! ## Generation loop (source lines 641–672) -/

/-- State of the generation loop: the running RNG state `s`, the tracked
statistics, and the cells painted so far (in traversal order).  The
source's `min_val` starts at Python's `float('inf')`, modelled as `⊤` in
`WithTop ℤ`, the maximum of the order in which minima are tracked. -/
structure LoopState where
  s : ℤ
  last_value : ℤ
  min_val : WithTop ℤ
  max_val : ℤ
  grid : List (ℤ × ℤ × ℤ)
deriving DecidableEq

/-- One iteration of the generation loop body:
`s, mod = algo_func(s); last_value = s; min_val = min(min_val, s);`
`max_val = max(max_val, s);` and one rectangle of color
`value_to_color(s, mod, algo_color)` painted onto the grid. -/
def genStep (step : ℤ → ℤ × ℤ) (tint : ℤ × ℤ × ℤ) (st : LoopState) : LoopState :=
  { s := (step st.s).1
    last_value := (step st.s).1
    min_val := min st.min_val ((step st.s).1 : ℤ)
    max_val := max st.max_val (step st.s).1
    grid := st.grid ++ [value_to_color (step st.s).1 (step st.s).2 tint] }

/-- The generation loop run for `n` iterations.  The source iterates
`y` over `range(GRID_H)` and `x` over `range(GRID_W)` with a body that
does not depend on `x` or `y` (they only place the painted rectangle), so
the loop is `GRID_W * GRID_H` repetitions of `genStep` in row-major
order. -/
def genIter (step : ℤ → ℤ × ℤ) (tint : ℤ × ℤ × ℤ) : ℕ → LoopState → LoopState
  | 0, st => st
  | n + 1, st => genIter step tint n (genStep step tint st)

/-- Loop state just before the generation loop (source lines 642–647):
`min_val = float('inf'); max_val = 0; s = seed; last_value = s`, empty
grid canvas. -/
def initState (seed : ℤ) : LoopState :=
  { s := seed, last_value := seed, min_val := ⊤, max_val := 0, grid := [] }

/-- A full generation pass over a `w × h` grid from a given seed. -/
def runGenerate (step : ℤ → ℤ × ℤ) (tint : ℤ × ℤ × ℤ) (seed : ℤ) (w h : ℕ) : LoopState :=
  genIter step tint (w * h) (initState seed)

/-- The stream of raw values produced by iterating a step function `n`
times from state `s` (each cell's recorded raw value, in order). -/
def rawValues (step : ℤ → ℤ × ℤ) : ℤ → ℕ → List ℤ
  | _, 0 => []
  | s, n + 1 => (step s).1 :: rawValues step (step s).1 n

/-! ## Application state and `generate_visualization` (source lines 616–679) -/

/-- The status label's text, abstracted: `Ready to generate visualization`,
`Generating...`, or `Generated {n} values using {algo}`. -/
inductive StatusLabel
  | ready
  | generating
  | done (count : ℕ) (algo : String)
deriving DecidableEq

/-- The four numeric entries of the statistics panel.  The fifth entry,
`Generation Time`, is wall-clock time and is outside the embedding. -/
structure RunStats where
  last_value : ℤ
  iterations : ℕ
  min_val : WithTop ℤ
  max_val : ℤ
deriving DecidableEq

/-- Caller-visible application state: the in-flight flag, the status
label, the selected algorithm name (a free-form `StringVar`), the seed
entry (abstracted to its parse: `some n` when `int(text)` yields `n`,
`none` when parsing raises `ValueError`), the grid canvas contents, and
the stats panel (`none` = the initial em-dash placeholders). -/
structure AppState where
  is_generating : Bool
  status : StatusLabel
  current_algorithm : String
  seed_entry : Option ℤ
  grid : List (ℤ × ℤ × ℤ)
  stats : Option RunStats
deriving DecidableEq

/-- Python exception raised by `ALGORITHMS[algo_name]` on an unknown key;
this realizes the spec's `NotFoundError`. -/
inductive PyErr
  | keyError (name : String)
deriving DecidableEq

/-- Grid width (`GRID_W = 120` in the source configuration). -/
def GRID_W : ℕ := 120

/-- Grid height (`GRID_H = 120` in the source configuration). -/
def GRID_H : ℕ := 120

/-- Model of `random.randint(lo, hi)`: a value in `[lo, hi]` determined by
the environment's randomness `oracle`. -/
def randint (lo hi : ℤ) (oracle : ℕ) : ℤ := lo + (oracle : ℤ) % (hi + 1 - lo)

/-- The `generate_visualization` method.  In source order: (1) early
return if `is_generating`; (2) set `is_generating = True` and the status
label to `Generating...`; (3) look up `ALGORITHMS[algo_name]`, raising
`KeyError` on an unknown name (the mutations of step 2 stay in place, and
the `is_generating = False` reset at the end of the method is skipped);
(4) parse the seed entry, substituting `random.randint(1, 999999)` and
writing it back to the entry on `ValueError`; (5) clear the grid, run the
generation loop, display the stats, set the success status and clear the
in-flight flag.  The second component reports normal return (`ok`) or the
escaping exception. -/
def generate_visualization (st : AppState) (oracle : ℕ) : AppState × Except PyErr Unit :=
  if st.is_generating then (st, .ok ())
  else
    let st1 : AppState := { st with is_generating := true, status := .generating }
    match List.lookup st1.current_algorithm ALGORITHMS with
    | none => (st1, .error (.keyError st1.current_algorithm))
    | some fc =>
      let seedPair : ℤ × Option ℤ :=
        match st1.seed_entry with
        | some n => (n, some n)
        | none => (randint 1 999999 oracle, some (randint 1 999999 oracle))
      let run := runGenerate fc.1 fc.2 seedPair.1 GRID_W GRID_H
      ({ st1 with
          seed_entry := seedPair.2
          grid := run.grid
          stats := some { last_value := run.last_value, iterations := GRID_W * GRID_H,
                          min_val := run.min_val, max_val := run.max_val }
          status := .done (GRID_W * GRID_H) st1.current_algorithm
          is_generating := false }, .ok ())

/-! ## Spec-side definitions (for refinement claims) -/

/-- Recurrence of the spec's table for the Linear Congruential algorithm:
`s' = (s * 9301 + 49297) mod 233280`, range `233280`, over unsigned
states. -/
def lcg_spec (s : ℕ) : ℕ × ℕ := ((s * 9301 + 49297) % 233280, 233280)

/-- Recurrence of the spec's table for Park-Miller:
`s' = (s * 16807) mod 2147483647`, range `2147483647`. -/
def park_miller_spec (s : ℕ) : ℕ × ℕ := ((s * 16807) % 2147483647, 2147483647)

/-- Recurrence of the spec's table for Multiply-with-Carry:
`c = (s >> 32) & 0xFFFFFFFF; x = s & 0xFFFFFFFF;`
`s' = (4294957665 * x + c) & 0xFFFFFFFFFFFFFFFF`, range
`0xFFFFFFFFFFFFFFFF`. -/
def multiply_with_carry_spec (s : ℕ) : ℕ × ℕ :=
  ((4294957665 * (s &&& 0xFFFFFFFF) + ((s >>> 32) &&& 0xFFFFFFFF)) &&& 0xFFFFFFFFFFFFFFFF,
   0xFFFFFFFFFFFFFFFF)

/-- Xorshift as claim C2 words it: the three updates
`s' = s xor (s << 13)`, `s' = s' xor (s' >> 17)`, `s' = s' xor (s' << 5)`
with each intermediate result masked to 32 bits, returning that 32-bit
result with range `0xFFFFFFFF`. -/
def xorshift_spec (s : ℤ) : ℤ × ℤ :=
  let s1 := pyMask (pyXor s (pyShl s 13)) 32
  let s2 := pyMask (pyXor s1 (pyShr s1 17)) 32
  let s3 := pyMask (pyXor s2 (pyShl s2 5)) 32
  (s3, 0xFFFFFFFF)

/-- Color mapping as claim C3 words it:
`base_gray = clamp(round(ratio * 200 + 20), 0, 255)`, then a 10% tint /
90% gray blend per channel clamped to `[0, 255]`.  The claim does not fix
how the blend becomes an integer; the source's truncation is used, so the
only deviation from `value_to_color` under test is `round` + `clamp` in
`base_gray` and the lower clamp on channels. -/
def value_to_color_claim (v m : ℤ) (tint : ℤ × ℤ × ℤ) : ℤ × ℤ × ℤ :=
  let r_q : ℚ := (v : ℚ) / (m : ℚ)
  let base_gray : ℤ := clamp (roundQ (r_q * 200 + 20)) 0 255
  let r := clamp (pyInt ((tint.1 : ℚ) * (1/10) + (base_gray : ℚ) * (9/10))) 0 255
  let g := clamp (pyInt ((tint.2.1 : ℚ) * (1/10) + (base_gray : ℚ) * (9/10))) 0 255
  let b := clamp (pyInt ((tint.2.2 : ℚ) * (1/10) + (base_gray : ℚ) * (9/10))) 0 255
  (r, g, b)

/-- Color mapping as amended claim C3 words it: identical to
`value_to_color_claim` except that `base_gray` truncates
(`int(ratio * 200 + 20)`) instead of rounding. -/
def value_to_color_amended (v m : ℤ) (tint : ℤ × ℤ × ℤ) : ℤ × ℤ × ℤ :=
  let r_q : ℚ := (v : ℚ) / (m : ℚ)
  let base_gray : ℤ := clamp (pyInt (r_q * 200 + 20)) 0 255
  let r := clamp (pyInt ((tint.1 : ℚ) * (1/10) + (base_gray : ℚ) * (9/10))) 0 255
  let g := clamp (pyInt ((tint.2.1 : ℚ) * (1/10) + (base_gray : ℚ) * (9/10))) 0 255
  let b := clamp (pyInt ((tint.2.2 : ℚ) * (1/10) + (base_gray : ℚ) * (9/10))) 0 255
  (r, g, b)

/-- Concrete application state used for the unknown-algorithm scenario:
idle, with an algorithm name that is not registered. -/
def unknownAlgoState : AppState :=
  { is_generating := false, status := .ready, current_algorithm := "Mersenne Twister",
    seed_entry := some 1, grid := [], stats := none }

/-- Concrete idle application state whose seed entry fails to parse. -/
def badSeedState : AppState :=
  { is_generating := false, status := .ready, current_algorithm := "Xorshift",
    seed_entry := none, grid := [], stats := none }

/-- Concrete idle application state with a parseable seed. -/
def idleState : AppState :=
  { is_generating := false, status := .ready, current_algorithm := "Xorshift",
    seed_entry := some 5, grid := [], stats := none }

/-- Concrete application state with a generation already in flight. -/
def busyState : AppState :=
  { is_generating := true, status := .generating, current_algorithm := "Xorshift",
    seed_entry := some 5, grid := [], stats := none }

/-! ## Arithmetic helper lemmas -/

theorem pyMask_nonneg (x : ℤ) (k : ℕ) : 0 ≤ pyMask x k :=
  Int.emod_nonneg x (by positivity)

theorem pyMask_lt (x : ℤ) (k : ℕ) : pyMask x k < 2 ^ k :=
  Int.emod_lt_of_pos x (by positivity)

theorem pyMask_ofNat (n k : ℕ) : pyMask (n : ℤ) k = ((n % 2 ^ k : ℕ) : ℤ) := by
  unfold pyMask
  norm_cast

theorem pyMask_eq_self {x : ℤ} {k : ℕ} (h0 : 0 ≤ x) (h : x < 2 ^ k) : pyMask x k = x :=
  Int.emod_eq_of_lt h0 h

theorem pyXor_natCast (m n : ℕ) : pyXor (m : ℤ) (n : ℤ) = ((m ^^^ n : ℕ) : ℤ) := rfl

theorem pyShr_natCast (m k : ℕ) : pyShr (m : ℤ) k = ((m >>> k : ℕ) : ℤ) := rfl

theorem pyShl_natCast (m k : ℕ) : pyShl (m : ℤ) k = ((m * 2 ^ k : ℕ) : ℤ) := by
  unfold pyShl
  push_cast
  ring

theorem natXor_mod_two_pow (a b k : ℕ) :
    (a ^^^ b) % 2 ^ k = a % 2 ^ k ^^^ b % 2 ^ k := by
  apply Nat.eq_of_testBit_eq
  intro i
  simp [Nat.testBit_mod_two_pow, Nat.testBit_xor, Bool.and_xor_distrib_left]

/-! ## Claim C1 -/

/-- Claim C1: for every unsigned 64-bit state `s`, the step functions
`lcg`, `park_miller` and `multiply_with_carry` return exactly the
(next state, range) pair given by the spec's table. -/
theorem C1_step_functions_follow_spec_table (s : ℕ) (h : s < 2 ^ 64) :
    lcg (s : ℤ) = (((lcg_spec s).1 : ℤ), ((lcg_spec s).2 : ℤ)) ∧
    park_miller (s : ℤ) = (((park_miller_spec s).1 : ℤ), ((park_miller_spec s).2 : ℤ)) ∧
    multiply_with_carry (s : ℤ) =
      (((multiply_with_carry_spec s).1 : ℤ), ((multiply_with_carry_spec s).2 : ℤ)) := by
  refine ⟨?_, ?_, ?_⟩
  · simp only [lcg, lcg_spec, Prod.mk.injEq]
    constructor
    · push_cast
      ring_nf
    · norm_num
  · simp only [park_miller, park_miller_spec, Prod.mk.injEq]
    constructor
    · push_cast
      ring_nf
    · norm_num
  · have h32 : (0xFFFFFFFF : ℕ) = 2 ^ 32 - 1 := by norm_num
    have h64 : (0xFFFFFFFFFFFFFFFF : ℕ) = 2 ^ 64 - 1 := by norm_num
    simp only [multiply_with_carry, multiply_with_carry_spec, Prod.mk.injEq, h32, h64,
      Nat.and_pow_two_sub_one_eq_mod, pyShr_natCast, pyMask_ofNat]
    constructor
    · have e1 : (4294957665 : ℤ) * ((s % 2 ^ 32 : ℕ) : ℤ) + ((s >>> 32 % 2 ^ 32 : ℕ) : ℤ)
          = ((4294957665 * (s % 2 ^ 32) + s >>> 32 % 2 ^ 32 : ℕ) : ℤ) := by
        push_cast
        ring
      rw [e1, pyMask_ofNat]
    · norm_num

/-- Witness for C1 at the concrete 64-bit state `12345`. -/
theorem C1_witness :
    lcg ((12345 : ℕ) : ℤ) = (((lcg_spec 12345).1 : ℤ), ((lcg_spec 12345).2 : ℤ)) ∧
    park_miller ((12345 : ℕ) : ℤ) =
      (((park_miller_spec 12345).1 : ℤ), ((park_miller_spec 12345).2 : ℤ)) ∧
    multiply_with_carry ((12345 : ℕ) : ℤ) =
      (((multiply_with_carry_spec 12345).1 : ℤ), ((multiply_with_carry_spec 12345).2 : ℤ)) :=
  C1_step_functions_follow_spec_table 12345 (by norm_num)

/-! ## Claim C2 -/

/-- Counterexample to claim C2: at the 64-bit state `2^32` the source's
`xorshift` (which masks only the left-shift terms and the return value)
differs from the fully-masked recurrence the claim describes.  The code
yields `(1081344, 0xFFFFFFFF)`, the claim's recurrence `(0, 0xFFFFFFFF)`. -/
theorem C2_counterexample : xorshift 4294967296 ≠ xorshift_spec 4294967296 := by decide

/-- Amended claim C2: on states in `[0, 2^32)` — every state `xorshift`
itself can produce — the source's `xorshift` agrees exactly with the
claim's recurrence in which every intermediate result is masked to 32
bits; outside that window (states ≥ 2^32 or negative) the two can
differ, since the source leaves the right-shift term and the xor results
unmasked. -/
theorem C2_xorshift_fully_masked_on_32bit_states (s : ℤ) (h0 : 0 ≤ s) (h : s < 2 ^ 32) :
    xorshift s = xorshift_spec s := by
  obtain ⟨n, rfl⟩ := Int.eq_ofNat_of_zero_le h0
  have hn : n < 2 ^ 32 := by exact_mod_cast h
  have key : ∀ a b : ℕ, a < 2 ^ 32 → (a ^^^ b) % 2 ^ 32 = a ^^^ b % 2 ^ 32 := by
    intro a b ha
    rw [natXor_mod_two_pow, Nat.mod_eq_of_lt ha]
  have hshr : ∀ a : ℕ, a >>> 17 ≤ a := by
    intro a
    rw [Nat.shiftRight_eq_div_pow]
    exact Nat.div_le_self _ _
  simp only [xorshift, xorshift_spec, pyShl_natCast, pyMask_ofNat, pyXor_natCast,
    pyShr_natCast]
  rw [key n (n * 2 ^ 13) hn]
  obtain ⟨a, ha⟩ : ∃ a, n ^^^ n * 2 ^ 13 % 2 ^ 32 = a := ⟨_, rfl⟩
  rw [ha]
  have ha32 : a < 2 ^ 32 := ha ▸ Nat.xor_lt_two_pow hn (Nat.mod_lt _ (by positivity))
  have e2 : (a ^^^ a >>> 17) % 2 ^ 32 = a ^^^ a >>> 17 :=
    Nat.mod_eq_of_lt (Nat.xor_lt_two_pow ha32 (lt_of_le_of_lt (hshr a) ha32))
  rw [e2]
  obtain ⟨b, hb⟩ : ∃ b, a ^^^ a >>> 17 = b := ⟨_, rfl⟩
  rw [hb]
  have hb32 : b < 2 ^ 32 := hb ▸ Nat.xor_lt_two_pow ha32 (lt_of_le_of_lt (hshr a) ha32)
  rw [key b (b * 2 ^ 5) hb32]
  rw [Nat.mod_eq_of_lt (Nat.xor_lt_two_pow hb32 (Nat.mod_lt (b * 2 ^ 5) (by positivity)))]

/-- Witness for the amended C2 at the 32-bit state `5`. -/
theorem C2_witness : xorshift 5 = xorshift_spec 5 :=
  C2_xorshift_fully_masked_on_32bit_states 5 (by norm_num) (by norm_num)

/-! ## Claim C3 -/

theorem ratFloor_eq_intFloor (q : ℚ) : q.floor = ⌊q⌋ := by
  rw [Rat.floor_def', Rat.floor_def]

theorem pyInt_eq_floor {q : ℚ} (h : 0 ≤ q) : pyInt q = ⌊q⌋ := by
  simp [pyInt, h, ratFloor_eq_intFloor]

theorem clamp_eq_self {x : ℤ} (h0 : 0 ≤ x) (h1 : x ≤ 255) : clamp x 0 255 = x := by
  rw [clamp, min_eq_left h1, max_eq_right h0]

theorem base_gray_bounds {v m : ℤ} (h0 : 0 ≤ v) (h1 : v ≤ m) (h2 : 0 < m) :
    20 ≤ pyInt ((v : ℚ) / (m : ℚ) * 200 + 20) ∧
    pyInt ((v : ℚ) / (m : ℚ) * 200 + 20) ≤ 220 := by
  have hm : (0 : ℚ) < (m : ℚ) := by exact_mod_cast h2
  have hr0 : (0 : ℚ) ≤ (v : ℚ) / (m : ℚ) := div_nonneg (by exact_mod_cast h0) hm.le
  have hr1 : (v : ℚ) / (m : ℚ) ≤ 1 := (div_le_one hm).2 (by exact_mod_cast h1)
  have hq0 : (20 : ℚ) ≤ (v : ℚ) / (m : ℚ) * 200 + 20 := by nlinarith
  have hq1 : (v : ℚ) / (m : ℚ) * 200 + 20 ≤ 220 := by nlinarith
  rw [pyInt_eq_floor (le_trans (by norm_num) hq0)]
  constructor
  · exact Int.le_floor.2 (by exact_mod_cast hq0)
  · have hlt : ⌊(v : ℚ) / (m : ℚ) * 200 + 20⌋ < 221 := Int.floor_lt.2 (by push_cast; linarith)
    omega

theorem blend_channel_bounds {t bg : ℤ} (ht0 : 0 ≤ t) (ht1 : t ≤ 255)
    (hb0 : 20 ≤ bg) (hb1 : bg ≤ 220) :
    0 ≤ pyInt ((t : ℚ) * (1/10) + (bg : ℚ) * (9/10)) ∧
    pyInt ((t : ℚ) * (1/10) + (bg : ℚ) * (9/10)) ≤ 255 := by
  have h1 : (0 : ℚ) ≤ (t : ℚ) := by exact_mod_cast ht0
  have h2 : (20 : ℚ) ≤ (bg : ℚ) := by exact_mod_cast hb0
  have h3 : (t : ℚ) ≤ 255 := by exact_mod_cast ht1
  have h4 : (bg : ℚ) ≤ 220 := by exact_mod_cast hb1
  have hq0 : (0 : ℚ) ≤ (t : ℚ) * (1/10) + (bg : ℚ) * (9/10) := by nlinarith
  have hqU : (t : ℚ) * (1/10) + (bg : ℚ) * (9/10) < 256 := by nlinarith
  rw [pyInt_eq_floor hq0]
  constructor
  · exact Int.le_floor.2 (by exact_mod_cast hq0)
  · have hlt : ⌊(t : ℚ) * (1/10) + (bg : ℚ) * (9/10)⌋ < 256 :=
      Int.floor_lt.2 (by push_cast; linarith)
    omega

/-- Counterexample to claim C3: at `v = 7`, `range = 800`, tint `(0,0,0)`,
`ratio * 200 + 20 = 21.75`; the source truncates (`int`) to `base_gray =
21` while the claim rounds to `22`, and the difference survives the blend:
the code produces channel value `18`, the claim's mapping `19`. -/
theorem C3_counterexample :
    value_to_color 7 800 (0, 0, 0) ≠ value_to_color_claim 7 800 (0, 0, 0) := by
  have hbg : pyInt (((7 : ℤ) : ℚ) / ((800 : ℤ) : ℚ) * 200 + 20) = 21 := by
    rw [pyInt_eq_floor (by norm_num)]
    rw [Int.floor_eq_iff]
    norm_num
  have hrq : roundQ (((7 : ℤ) : ℚ) / ((800 : ℤ) : ℚ) * 200 + 20) = 22 := by
    rw [roundQ, ratFloor_eq_intFloor]
    rw [Int.floor_eq_iff]
    norm_num
  have hch : pyInt (((0 : ℤ) : ℚ) * (1/10) + ((21 : ℤ) : ℚ) * (9/10)) = 18 := by
    rw [pyInt_eq_floor (by norm_num)]
    rw [Int.floor_eq_iff]
    norm_num
  have hch' : pyInt (((0 : ℤ) : ℚ) * (1/10) + ((22 : ℤ) : ℚ) * (9/10)) = 19 := by
    rw [pyInt_eq_floor (by norm_num)]
    rw [Int.floor_eq_iff]
    norm_num
  have hcode : value_to_color 7 800 (0, 0, 0) = (18, 18, 18) := by
    simp only [value_to_color, hbg, hch]
    norm_num
  have hclaim : value_to_color_claim 7 800 (0, 0, 0) = (19, 19, 19) := by
    simp only [value_to_color_claim, hrq]
    have hcl : clamp 22 0 255 = 22 := by rw [clamp_eq_self] <;> norm_num
    simp only [hcl, hch']
    have hcl' : clamp 19 0 255 = 19 := by rw [clamp_eq_self] <;> norm_num
    simp only [hcl']
  rw [hcode, hclaim]
  decide

/-- Amended claim C3: for `0 ≤ v ≤ range`, `range > 0` and a 3-byte tint,
the color mapping computes `ratio = v / range` by real-valued division,
`base_gray = clamp(trunc(ratio * 200 + 20), 0, 255)` — truncation, not
rounding (the clamp is vacuous on this domain) — then blends 10% of each
tint channel with 90% of `base_gray`, truncated and clamped to `[0, 255]`;
every resulting channel lies in `[0, 255]`, and identical
`(value, range, tint)` triples yield identical colors (the mapping is a
pure function of these three arguments). -/
theorem C3_color_mapping_truncates_not_rounds (v m : ℤ) (tint : ℤ × ℤ × ℤ)
    (h0 : 0 ≤ v) (h1 : v ≤ m) (h2 : 0 < m)
    (ht : 0 ≤ tint.1 ∧ tint.1 ≤ 255 ∧ 0 ≤ tint.2.1 ∧ tint.2.1 ≤ 255 ∧
          0 ≤ tint.2.2 ∧ tint.2.2 ≤ 255) :
    value_to_color v m tint = value_to_color_amended v m tint ∧
    0 ≤ (value_to_color v m tint).1 ∧ (value_to_color v m tint).1 ≤ 255 ∧
    0 ≤ (value_to_color v m tint).2.1 ∧ (value_to_color v m tint).2.1 ≤ 255 ∧
    0 ≤ (value_to_color v m tint).2.2 ∧ (value_to_color v m tint).2.2 ≤ 255 := by
  obtain ⟨hta, htb, htc, htd, hte, htf⟩ := ht
  obtain ⟨hb0, hb1⟩ := base_gray_bounds h0 h1 h2
  obtain ⟨hr0, hr1⟩ := blend_channel_bounds hta htb hb0 hb1
  obtain ⟨hg0, hg1⟩ := blend_channel_bounds htc htd hb0 hb1
  obtain ⟨hc0, hc1⟩ := blend_channel_bounds hte htf hb0 hb1
  simp only [value_to_color, value_to_color_amended]
  rw [clamp_eq_self (le_trans (by norm_num) hb0) (le_trans hb1 (by norm_num))]
  rw [min_eq_left hr1, min_eq_left hg1, min_eq_left hc1,
    clamp_eq_self hr0 hr1, clamp_eq_self hg0 hg1, clamp_eq_self hc0 hc1]
  exact ⟨rfl, hr0, hr1, hg0, hg1, hc0, hc1⟩

/-- Witness for the amended C3 at `v = 100`, `range = 200`, the LCG tint. -/
theorem C3_witness :
    value_to_color 100 200 (0, 212, 255) = value_to_color_amended 100 200 (0, 212, 255) ∧
    0 ≤ (value_to_color 100 200 (0, 212, 255)).1 ∧
    (value_to_color 100 200 (0, 212, 255)).1 ≤ 255 ∧
    0 ≤ (value_to_color 100 200 (0, 212, 255)).2.1 ∧
    (value_to_color 100 200 (0, 212, 255)).2.1 ≤ 255 ∧
    0 ≤ (value_to_color 100 200 (0, 212, 255)).2.2 ∧
    (value_to_color 100 200 (0, 212, 255)).2.2 ≤ 255 :=
  C3_color_mapping_truncates_not_rounds 100 200 (0, 212, 255)
    (by norm_num) (by norm_num) (by norm_num) (by norm_num)

/-! ## Generation-loop lemmas -/

theorem genStep_bracket (step : ℤ → ℤ × ℤ) (tint : ℤ × ℤ × ℤ) (st : LoopState) :
    (genStep step tint st).min_val ≤ ((genStep step tint st).last_value : WithTop ℤ) ∧
    (genStep step tint st).last_value ≤ (genStep step tint st).max_val := by
  constructor
  · exact min_le_right _ _
  · exact le_max_right _ _

theorem genIter_bracket (step : ℤ → ℤ × ℤ) (tint : ℤ × ℤ × ℤ) (n : ℕ) (st : LoopState)
    (h : st.min_val ≤ (st.last_value : WithTop ℤ) ∧ st.last_value ≤ st.max_val) :
    (genIter step tint n st).min_val ≤ ((genIter step tint n st).last_value : WithTop ℤ) ∧
    (genIter step tint n st).last_value ≤ (genIter step tint n st).max_val := by
  induction n generalizing st with
  | zero => exact h
  | succ n ih => exact ih _ (genStep_bracket step tint st)

theorem runGenerate_bracket (step : ℤ → ℤ × ℤ) (tint : ℤ × ℤ × ℤ) (seed : ℤ) (w h : ℕ)
    (hpos : 0 < w * h) :
    (runGenerate step tint seed w h).min_val
      ≤ ((runGenerate step tint seed w h).last_value : WithTop ℤ) ∧
    (runGenerate step tint seed w h).last_value ≤ (runGenerate step tint seed w h).max_val := by
  obtain ⟨n, hn⟩ : ∃ n, w * h = n + 1 := ⟨w * h - 1, by omega⟩
  rw [runGenerate, hn]
  exact genIter_bracket step tint n _ (genStep_bracket step tint (initState seed))

/-! ## Claim C6 -/

/-- Counterexample to claim C6: there is no registered algorithm and seed
for which `min_value ≤ last_value ≤ max_value` fails on the actual
120 × 120 run — the last value is always among the tracked values, so the
bracketing in fact always holds; the claim's first conjunct (that failing
algorithm/seed inputs exist) is false. -/
theorem C6_counterexample :
    ¬ ∃ p ∈ ALGORITHMS, ∃ seed : ℤ,
      ¬ ((runGenerate p.2.1 p.2.2 seed GRID_W GRID_H).min_val
            ≤ ((runGenerate p.2.1 p.2.2 seed GRID_W GRID_H).last_value : WithTop ℤ) ∧
         (runGenerate p.2.1 p.2.2 seed GRID_W GRID_H).last_value
            ≤ (runGenerate p.2.1 p.2.2 seed GRID_W GRID_H).max_val) := by
  rintro ⟨p, hp, seed, hne⟩
  exact hne (runGenerate_bracket p.2.1 p.2.2 seed GRID_W GRID_H (by decide))

/-- Amended claim C6: whenever `iteration_count > 0` (in particular for
every algorithm/seed on the fixed 120 × 120 grid),
`min_value ≤ last_value ≤ max_value` ALWAYS holds — the last raw value is
among the tracked values — and so does `min_value ≤ max_value`; the
bracketing can only fail on an empty run (`iteration_count = 0`), where
`min_value` stays at its `⊤` sentinel. -/
theorem C6_minmax_invariants (step : ℤ → ℤ × ℤ) (tint : ℤ × ℤ × ℤ) (seed : ℤ) (w h : ℕ)
    (hpos : 0 < w * h) :
    (runGenerate step tint seed w h).min_val
      ≤ ((runGenerate step tint seed w h).last_value : WithTop ℤ) ∧
    (runGenerate step tint seed w h).last_value ≤ (runGenerate step tint seed w h).max_val ∧
    (runGenerate step tint seed w h).min_val
      ≤ ((runGenerate step tint seed w h).max_val : WithTop ℤ) := by
  obtain ⟨h1, h2⟩ := runGenerate_bracket step tint seed w h hpos
  exact ⟨h1, h2, le_trans h1 (WithTop.coe_le_coe.2 h2)⟩

/-- Witness for the amended C6: LCG with seed 1 on a 1 × 1 grid. -/
theorem C6_witness :
    (runGenerate lcg (0x00, 0xd4, 0xff) 1 1 1).min_val
      ≤ ((runGenerate lcg (0x00, 0xd4, 0xff) 1 1 1).last_value : WithTop ℤ) ∧
    (runGenerate lcg (0x00, 0xd4, 0xff) 1 1 1).last_value
      ≤ (runGenerate lcg (0x00, 0xd4, 0xff) 1 1 1).max_val ∧
    (runGenerate lcg (0x00, 0xd4, 0xff) 1 1 1).min_val
      ≤ ((runGenerate lcg (0x00, 0xd4, 0xff) 1 1 1).max_val : WithTop ℤ) :=
  C6_minmax_invariants lcg (0x00, 0xd4, 0xff) 1 1 1 (by decide)

/-! ## Claim C7 -/

theorem genIter_min_max_fold (step : ℤ → ℤ × ℤ) (tint : ℤ × ℤ × ℤ) (n : ℕ) (st : LoopState) :
    (genIter step tint n st).min_val
      = (rawValues step st.s n).foldl (fun m v => min m (v : WithTop ℤ)) st.min_val ∧
    (genIter step tint n st).max_val
      = (rawValues step st.s n).foldl max st.max_val := by
  induction n generalizing st with
  | zero => exact ⟨rfl, rfl⟩
  | succ n ih =>
    simp only [genIter, rawValues, List.foldl_cons]
    exact ih (genStep step tint st)

/-- Claim C7: before the loop `min_value` is initialized to the maximum
representable value of the tracking order (`float('inf')`, i.e. `⊤` in
`WithTop ℤ`) and `max_value` to `0`, and the finished run's `min_value` /
`max_value` are exactly the fold of `min` / `max` over the raw values
seen during that single run, starting from those two sentinels — in
particular they depend on nothing from any previous run. -/
theorem C7_min_max_tracked_over_single_run (step : ℤ → ℤ × ℤ) (tint : ℤ × ℤ × ℤ)
    (seed : ℤ) (w h : ℕ) :
    (runGenerate step tint seed w h).min_val
      = (rawValues step seed (w * h)).foldl (fun m v => min m (v : WithTop ℤ)) ⊤ ∧
    (runGenerate step tint seed w h).max_val
      = (rawValues step seed (w * h)).foldl max 0 :=
  genIter_min_max_fold step tint (w * h) (initState seed)

/-! ## Claim C10 -/

/-- Claim C10: when a generation run is already in flight, a second call
of `generate_visualization` returns immediately as a no-op, leaving the
whole caller-visible state — grid, statistics, status text, seed field,
flag — unchanged, and raising nothing. -/
theorem C10_generate_noop_when_in_flight (st : AppState) (oracle : ℕ)
    (h : st.is_generating = true) :
    generate_visualization st oracle = (st, .ok ()) := by
  simp [generate_visualization, h]

/-- Witness for C10 on a concrete in-flight state. -/
theorem C10_witness : generate_visualization busyState 0 = (busyState, .ok ()) :=
  C10_generate_noop_when_in_flight busyState 0 rfl

/-! ## Claim C5 -/

/-- Counterexample to claim C5: calling `generate_visualization` with the
unregistered algorithm name of `unknownAlgoState` does mutate
caller-visible state before the name is validated — the in-flight flag is
set (and, the reset being skipped by the exception, stays set) and the
status label is switched to `Generating...` — so the failing call does
not leave the state untouched. -/
theorem C5_counterexample :
    (generate_visualization unknownAlgoState 0).1 ≠ unknownAlgoState := by decide

/-- Amended claim C5: with no run in flight, calling
`generate_visualization` with an unregistered algorithm name fails with
the `KeyError` realizing `NotFoundError`, and the grid, the statistics
and the seed field from the prior call remain untouched (they are only
written after the name is validated); however the in-flight flag and the
status label ARE mutated before validation — the flag is left set and the
status label shows `Generating...` after the failing call. -/
theorem C5_unknown_algorithm_error_preserves_grid_and_stats (st : AppState) (oracle : ℕ)
    (hflag : st.is_generating = false)
    (hmiss : List.lookup st.current_algorithm ALGORITHMS = none) :
    (generate_visualization st oracle).2 = .error (.keyError st.current_algorithm) ∧
    (generate_visualization st oracle).1.grid = st.grid ∧
    (generate_visualization st oracle).1.stats = st.stats ∧
    (generate_visualization st oracle).1.seed_entry = st.seed_entry ∧
    (generate_visualization st oracle).1.is_generating = true ∧
    (generate_visualization st oracle).1.status = .generating := by
  simp [generate_visualization, hflag, hmiss]

/-- Witness for the amended C5 on the concrete idle state with the
unregistered algorithm name. -/
theorem C5_witness :
    (generate_visualization unknownAlgoState 0).2
      = .error (.keyError unknownAlgoState.current_algorithm) ∧
    (generate_visualization unknownAlgoState 0).1.grid = unknownAlgoState.grid ∧
    (generate_visualization unknownAlgoState 0).1.stats = unknownAlgoState.stats ∧
    (generate_visualization unknownAlgoState 0).1.seed_entry = unknownAlgoState.seed_entry ∧
    (generate_visualization unknownAlgoState 0).1.is_generating = true ∧
    (generate_visualization unknownAlgoState 0).1.status = .generating :=
  C5_unknown_algorithm_error_preserves_grid_and_stats unknownAlgoState 0 rfl rfl

/-! ## Claim C8 -/

/-- Claim C8: when the seed text fails to parse as an integer,
`generate_visualization` does not fail: it draws `random.randint(1,
999999)` — a value always in `[1, 999999]` — writes it back into the seed
entry (surfacing the effective seed to the caller), and uses exactly that
substitute as the generation seed for the grid and the statistics. -/
theorem C8_unparseable_seed_substituted_and_surfaced (st : AppState) (oracle : ℕ)
    (fc : (ℤ → ℤ × ℤ) × (ℤ × ℤ × ℤ))
    (hflag : st.is_generating = false)
    (hseed : st.seed_entry = none)
    (halgo : List.lookup st.current_algorithm ALGORITHMS = some fc) :
    (generate_visualization st oracle).2 = .ok () ∧
    (generate_visualization st oracle).1.seed_entry = some (randint 1 999999 oracle) ∧
    1 ≤ randint 1 999999 oracle ∧ randint 1 999999 oracle ≤ 999999 ∧
    (generate_visualization st oracle).1.grid
      = (runGenerate fc.1 fc.2 (randint 1 999999 oracle) GRID_W GRID_H).grid ∧
    (generate_visualization st oracle).1.stats
      = some { last_value := (runGenerate fc.1 fc.2 (randint 1 999999 oracle) GRID_W GRID_H).last_value,
               iterations := GRID_W * GRID_H,
               min_val := (runGenerate fc.1 fc.2 (randint 1 999999 oracle) GRID_W GRID_H).min_val,
               max_val := (runGenerate fc.1 fc.2 (randint 1 999999 oracle) GRID_W GRID_H).max_val } := by
  have hr0 : (0 : ℤ) ≤ (oracle : ℤ) % 999999 := Int.emod_nonneg _ (by norm_num)
  have hr1 : (oracle : ℤ) % 999999 < 999999 := Int.emod_lt_of_pos _ (by norm_num)
  have hrand1 : 1 ≤ randint 1 999999 oracle := by
    rw [randint]
    omega
  have hrand2 : randint 1 999999 oracle ≤ 999999 := by
    rw [randint]
    omega
  refine ⟨?_, ?_, hrand1, hrand2, ?_, ?_⟩ <;>
    simp [generate_visualization, hflag, hseed, halgo]

/-- Witness for C8 on the concrete state whose seed entry fails to parse,
with the Xorshift algorithm selected and oracle 7. -/
theorem C8_witness :
    (generate_visualization badSeedState 7).2 = .ok () ∧
    (generate_visualization badSeedState 7).1.seed_entry = some (randint 1 999999 7) ∧
    1 ≤ randint 1 999999 7 ∧ randint 1 999999 7 ≤ 999999 ∧
    (generate_visualization badSeedState 7).1.grid
      = (runGenerate xorshift (0xff, 0xaa, 0x00) (randint 1 999999 7) GRID_W GRID_H).grid ∧
    (generate_visualization badSeedState 7).1.stats
      = some { last_value :=
                 (runGenerate xorshift (0xff, 0xaa, 0x00) (randint 1 999999 7) GRID_W GRID_H).last_value,
               iterations := GRID_W * GRID_H,
               min_val :=
                 (runGenerate xorshift (0xff, 0xaa, 0x00) (randint 1 999999 7) GRID_W GRID_H).min_val,
               max_val :=
                 (runGenerate xorshift (0xff, 0xaa, 0x00) (randint 1 999999 7) GRID_W GRID_H).max_val } :=
  C8_unparseable_seed_substituted_and_surfaced badSeedState 7 (xorshift, (0xff, 0xaa, 0x00))
    rfl rfl rfl

/-! ## Claim C4 -/

/-- Claim C4: with a seed that parses, generation is deterministic — the
result of `generate_visualization` does not depend on the randomness
oracle (the only environmental input; wall-clock time is outside the
model), and running it again from the resulting state reproduces exactly
the same grid and the same displayed statistics. -/
theorem C4_generation_deterministic (st : AppState) (n : ℤ) (o₁ o₂ : ℕ)
    (hseed : st.seed_entry = some n) :
    generate_visualization st o₁ = generate_visualization st o₂ ∧
    (generate_visualization (generate_visualization st o₁).1 o₂).1.grid
      = (generate_visualization st o₁).1.grid ∧
    (generate_visualization (generate_visualization st o₁).1 o₂).1.stats
      = (generate_visualization st o₁).1.stats := by
  cases hflag : st.is_generating with
  | true => simp [generate_visualization, hflag]
  | false =>
    cases hL : List.lookup st.current_algorithm ALGORITHMS with
    | none => simp [generate_visualization, hflag, hL]
    | some fc => simp [generate_visualization, hflag, hL, hseed]

/-- Witness for C4 on the concrete idle state with parseable seed `5`. -/
theorem C4_witness :
    generate_visualization idleState 0 = generate_visualization idleState 3 ∧
    (generate_visualization (generate_visualization idleState 0).1 3).1.grid
      = (generate_visualization idleState 0).1.grid ∧
    (generate_visualization (generate_visualization idleState 0).1 3).1.stats
      = (generate_visualization idleState 0).1.stats :=
  C4_generation_deterministic idleState 5 0 3 rfl

/-! ## Claim C9 -/

theorem ratio_bounds_of {v r : ℤ} (h0 : 0 ≤ v) (h1 : v ≤ r) (h2 : 0 < r) :
    0 ≤ (v : ℚ) / (r : ℚ) ∧ (v : ℚ) / (r : ℚ) ≤ 1 := by
  have hr : (0 : ℚ) < (r : ℚ) := by exact_mod_cast h2
  constructor
  · exact div_nonneg (by exact_mod_cast h0) hr.le
  · exact (div_le_one hr).2 (by exact_mod_cast h1)

theorem lcg_value_bounds (s : ℤ) : 0 ≤ (lcg s).1 ∧ (lcg s).1 < (lcg s).2 :=
  ⟨Int.emod_nonneg _ (by norm_num), Int.emod_lt_of_pos _ (by norm_num)⟩

theorem park_miller_value_bounds (s : ℤ) :
    0 ≤ (park_miller s).1 ∧ (park_miller s).1 < (park_miller s).2 :=
  ⟨Int.emod_nonneg _ (by norm_num), Int.emod_lt_of_pos _ (by norm_num)⟩

theorem xorshift_value_bounds (s : ℤ) :
    0 ≤ (xorshift s).1 ∧ (xorshift s).1 ≤ (xorshift s).2 := by
  simp only [xorshift]
  constructor
  · exact pyMask_nonneg _ _
  · have h := pyMask_lt (pyXor (pyXor (pyXor s (pyMask (pyShl s 13) 32))
      (pyShr (pyXor s (pyMask (pyShl s 13) 32)) 17))
      (pyMask (pyShl (pyXor (pyXor s (pyMask (pyShl s 13) 32))
        (pyShr (pyXor s (pyMask (pyShl s 13) 32)) 17)) 5) 32)) 32
    have h32 : ((2 : ℤ) ^ 32) = 4294967296 := by norm_num
    rw [h32] at h
    omega

theorem multiply_with_carry_value_bounds (s : ℤ) :
    0 ≤ (multiply_with_carry s).1 ∧ (multiply_with_carry s).1 < (multiply_with_carry s).2 := by
  simp only [multiply_with_carry]
  have hx0 := pyMask_nonneg s 32
  have hx1 := pyMask_lt s 32
  have hc0 := pyMask_nonneg (pyShr s 32) 32
  have hc1 := pyMask_lt (pyShr s 32) 32
  have h32 : ((2 : ℤ) ^ 32) = 4294967296 := by norm_num
  rw [h32] at hx1 hc1
  have hA0 : 0 ≤ 4294957665 * pyMask s 32 + pyMask (pyShr s 32) 32 := by
    have := mul_nonneg (by norm_num : (0 : ℤ) ≤ 4294957665) hx0
    linarith
  have hA1 : 4294957665 * pyMask s 32 + pyMask (pyShr s 32) 32
      ≤ 4294957665 * 4294967295 + 4294967295 := by
    have := mul_le_mul_of_nonneg_left (by linarith : pyMask s 32 ≤ 4294967295)
      (by norm_num : (0 : ℤ) ≤ 4294957665)
    linarith
  have hA2 : 4294957665 * pyMask s 32 + pyMask (pyShr s 32) 32 < (2 : ℤ) ^ 64 := by
    have : (4294957665 : ℤ) * 4294967295 + 4294967295 < (2 : ℤ) ^ 64 := by norm_num
    linarith
  rw [pyMask_eq_self hA0 hA2]
  constructor
  · exact hA0
  · have : (4294957665 : ℤ) * 4294967295 + 4294967295 < 18446744073709551615 := by norm_num
    linarith

/-- Counterexample to claim C9: Xorshift's masked output can equal its
returned range `0xFFFFFFFF` — at state `1584200935` the step yields
exactly `(0xFFFFFFFF, 0xFFFFFFFF)`, so the normalized ratio is `1`, not
`< 1`, for a registered algorithm. -/
theorem C9_counterexample :
    ("Xorshift", (xorshift, (0xff, 0xaa, 0x00))) ∈ ALGORITHMS ∧
    (xorshift 1584200935).1 = (xorshift 1584200935).2 ∧
    ((xorshift 1584200935).1 : ℚ) / ((xorshift 1584200935).2 : ℚ) = 1 := by
  refine ⟨?_, by decide, ?_⟩
  · unfold ALGORITHMS
    exact List.Mem.tail _ (List.Mem.tail _ (List.Mem.head _))
  · rw [(by decide : (xorshift 1584200935).1 = (4294967295 : ℤ)),
      (by decide : (xorshift 1584200935).2 = (4294967295 : ℤ))]
    norm_num

/-- Amended claim C9: for every registered algorithm the raw value is
nonnegative and at most the returned range, so the ratio lies in the
closed interval `[0, 1]`; for the three algorithms other than Xorshift
the value is strictly below the range (ratio in `[0, 1)`), while Xorshift
can attain ratio `1` because its range is `2^32 - 1`, the largest value
of its masked output. -/
theorem C9_ratio_bounds (p : String × ((ℤ → ℤ × ℤ) × (ℤ × ℤ × ℤ)))
    (hp : p ∈ ALGORITHMS) (s : ℤ) :
    0 ≤ (p.2.1 s).1 ∧ (p.2.1 s).1 ≤ (p.2.1 s).2 ∧
    0 ≤ ((p.2.1 s).1 : ℚ) / ((p.2.1 s).2 : ℚ) ∧
    ((p.2.1 s).1 : ℚ) / ((p.2.1 s).2 : ℚ) ≤ 1 ∧
    (p.1 ≠ "Xorshift" → (p.2.1 s).1 < (p.2.1 s).2) := by
  simp only [ALGORITHMS, List.mem_cons, List.not_mem_nil, or_false] at hp
  rcases hp with rfl | rfl | rfl | rfl
  · obtain ⟨h0, h1⟩ := lcg_value_bounds s
    obtain ⟨hq0, hq1⟩ := ratio_bounds_of h0 h1.le (lt_of_le_of_lt h0 h1)
    exact ⟨h0, h1.le, hq0, hq1, fun _ => h1⟩
  · obtain ⟨h0, h1⟩ := park_miller_value_bounds s
    obtain ⟨hq0, hq1⟩ := ratio_bounds_of h0 h1.le (lt_of_le_of_lt h0 h1)
    exact ⟨h0, h1.le, hq0, hq1, fun _ => h1⟩
  · obtain ⟨h0, h1⟩ := xorshift_value_bounds s
    obtain ⟨hq0, hq1⟩ := ratio_bounds_of h0 h1 (by norm_num [xorshift])
    exact ⟨h0, h1, hq0, hq1, fun hne => absurd rfl hne⟩
  · obtain ⟨h0, h1⟩ := multiply_with_carry_value_bounds s
    obtain ⟨hq0, hq1⟩ := ratio_bounds_of h0 h1.le (lt_of_le_of_lt h0 h1)
    exact ⟨h0, h1.le, hq0, hq1, fun _ => h1⟩

/-- Witness for the amended C9: the LCG registry entry at state `0`. -/
theorem C9_witness :
    0 ≤ (lcg 0).1 ∧ (lcg 0).1 ≤ (lcg 0).2 ∧
    0 ≤ ((lcg 0).1 : ℚ) / ((lcg 0).2 : ℚ) ∧
    ((lcg 0).1 : ℚ) / ((lcg 0).2 : ℚ) ≤ 1 ∧
    ("Linear Congruential (LCG)" ≠ "Xorshift" → (lcg 0).1 < (lcg 0).2) :=
  C9_ratio_bounds ("Linear Congruential (LCG)", (lcg, (0x00, 0xd4, 0xff)))
    (by unfold ALGORITHMS; exact List.Mem.head _) 0
